import Mathlib

/-!
Verification of the `md_mermaid` Markdown preprocessor (`src/md_mermaid.py`).

The embedding models the module's regular expressions as executable functions
on character lists, the `MermaidPreprocessor.run` loop as a fold over the input
lines with an explicit scan state, and `MermaidPreprocessor.__init__` as a
function producing the object's attribute state.  The Python attribute
`mermaid_js_url` may be *unset* (when the constructor takes the branch that
assigns `mermaid_url` instead), which is modelled by an outer `Option`;
reading an unset attribute raises `AttributeError`, modelled by `Except`.
-/

namespace MdMermaid

/-- The backtick character (written via its code point). -/
def backquote : Char := Char.ofNat 96

/-- Membership in the regex character class `[\~\`]`. -/
def isGlyph (c : Char) : Bool := c = '~' || c = backquote

/-- Membership in the regex character class `[\ \t]`. -/
def isWS (c : Char) : Bool := c = ' ' || c = '\t'

/-- Semantics of `[\ \t]*$` on the remaining characters of a line: all
whitespace, optionally ending in a single final newline (Python's `$` matches
at the end of the string or just before a trailing newline). -/
def wsTail : List Char → Bool
  | [] => true
  | [c] => c = '\n' || isWS c
  | c :: c' :: cs => isWS c && wsTail (c' :: cs)

/-- Semantics of `re.match(r"^[\ \t]*$", s)` (line 60 of the source):
the line is blank. -/
def isBlank (s : String) : Bool := wsTail s.data

/-- `MermaidRegex.match` (line 22):
`^(?P<mermaid_sign>[\~\`]){3}[\ \t]*[Mm]ermaid[\ \t]*$`.
Returns the captured `mermaid_sign` group (the last of the three repetitions)
on success, `none` on failure. -/
def matchOpen (s : String) : Option Char :=
  match s.data with
  | c1 :: c2 :: c3 :: rest =>
    if isGlyph c1 && isGlyph c2 && isGlyph c3 then
      match rest.dropWhile isWS with
      | m :: rest2 =>
        if (m = 'M' || m = 'm') && rest2.take 6 = ['e', 'r', 'm', 'a', 'i', 'd']
            && wsTail (rest2.drop 6)
        then some c3 else none
      | [] => none
    else none
  | _ => none

/-- `re.match(r"^[" + mermaid_sign + "]{3}[\ \t]*$", line)` (line 53): three
characters from the class built out of the recorded sign, then blank tail. -/
def matchClose (sign : String) (s : String) : Bool :=
  match s.data with
  | c1 :: c2 :: c3 :: rest =>
    sign.data.contains c1 && sign.data.contains c2 && sign.data.contains c3
      && wsTail rest
  | _ => false

/-- Python's `str.isspace()` character set — exactly the characters that
`str.rstrip()` with no argument strips.  In CPython these are the code
points 09-0D, 1C-20, 85, A0, 1680, 2000-200A, 2028-2029, 202F, 205F and
3000. -/
def pyWS (c : Char) : Bool :=
  (0x09 ≤ c.toNat && c.toNat ≤ 0x0d) ||
  (0x1c ≤ c.toNat && c.toNat ≤ 0x20) ||
  c.toNat = 0x85 || c.toNat = 0xa0 || c.toNat = 0x1680 ||
  (0x2000 ≤ c.toNat && c.toNat ≤ 0x200a) ||
  c.toNat = 0x2028 || c.toNat = 0x2029 || c.toNat = 0x202f ||
  c.toNat = 0x205f || c.toNat = 0x3000

/-- Python's `line.rstrip()` (line 73). -/
def rstrip (s : String) : String :=
  String.mk ((s.data.reverse.dropWhile pyWS).reverse)

/-- Extension configuration: `mermaid_version` and `mermaid_js_url`
(`none` models Python `None`, the "no value" sentinel; `some ""` models the
default empty string). -/
structure Config where
  mermaid_version : String
  mermaid_js_url : Option String

/-- Python exceptions the embedding can surface. -/
inductive PyErr
  | attributeError
  deriving DecidableEq, Repr

instance : DecidableEq (Except PyErr (List String)) := fun a b =>
  match a, b with
  | Except.ok x, Except.ok y =>
    if h : x = y then isTrue (by rw [h])
    else isFalse (fun he => h (by cases he; rfl))
  | Except.error x, Except.error y =>
    if h : x = y then isTrue (by rw [h])
    else isFalse (fun he => h (by cases he; rfl))
  | Except.ok _, Except.error _ => isFalse (fun he => by cases he)
  | Except.error _, Except.ok _ => isFalse (fun he => by cases he)

/-- Attribute state of a constructed `MermaidPreprocessor`.  The outer
`Option` on `mermaid_js_url` distinguishes "attribute never assigned"
(`none`) from "assigned" (`some v`, where `v` is `none` for Python `None`). -/
structure Preproc where
  mermaid_js_url : Option (Option String)
  mermaid_url : Option String
  deriving DecidableEq, Repr

def defaultURL : String := "https://unpkg.com/mermaid/dist/mermaid.min.js"

def versionedURL (v : String) : String :=
  "https://unpkg.com/mermaid@" ++ v ++ "/dist/mermaid.min.js"

namespace MermaidPreprocessor

/-- `MermaidPreprocessor.__init__` (lines 28-38).  Note the source's third
branch assigns `self.mermaid_url` (not `self.mermaid_js_url`), leaving the
`mermaid_js_url` attribute unset. -/
def init (config : Config) : Preproc :=
  match config.mermaid_js_url with
  | none => { mermaid_js_url := some none, mermaid_url := none }
  | some u =>
    if u ≠ "" then
      { mermaid_js_url := none, mermaid_url := some u }
    else if config.mermaid_version = "latest" || config.mermaid_version = "" then
      { mermaid_js_url := some (some defaultURL), mermaid_url := none }
    else
      { mermaid_js_url := some (some (versionedURL config.mermaid_version)),
        mermaid_url := none }

/-- The loop's local variables (lines 41-47).  `m_start`/`m_end` are consumed
within the iteration that sets them, so they need not be part of the state. -/
structure ScanState where
  old_line : String
  mermaid_sign : String
  in_mermaid_code : Bool
  is_mermaid : Bool
  deriving DecidableEq, Repr

def initState : ScanState :=
  { old_line := "", mermaid_sign := "", in_mermaid_code := false,
    is_mermaid := false }

def divOpen : String := "<div class=\"mermaid\">"
def divClose : String := "</div>"

/-- One iteration of the `for line in lines` loop (lines 48-77): the lines
appended to `new_lines` and the updated state. -/
def step (st : ScanState) (line : String) : List String × ScanState :=
  if st.in_mermaid_code then
    if matchClose st.mermaid_sign line then
      ([divClose, ""],
       { st with in_mermaid_code := false, old_line := line })
    else
      ([rstrip line], { st with old_line := line })
  else
    match matchOpen line with
    | some g =>
      ((if isBlank st.old_line then [] else [""]) ++ [divOpen],
       { old_line := line, mermaid_sign := String.mk [g],
         in_mermaid_code := true, is_mermaid := true })
    | none => ([line], { st with old_line := line })

/-- The whole `for` loop, threading the state. -/
def loop (st : ScanState) : List String → List String × ScanState
  | [] => ([], st)
  | l :: ls =>
    let p := step st l
    let q := loop p.2 ls
    (p.1 ++ q.1, q.2)

def scriptSrc (u : String) : String := "<script src=\"" ++ u ++ "\"></script>"

def scriptSync : String :=
  "<script>mermaid.initialize(\x7bstartOnLoad:true\x7d);</script>"

/-- The triple-quoted deferred-initialization script (lines 87-97), a single
string containing embedded newlines, reproduced byte for byte. -/
def deferredScript : String :=
  String.intercalate "\n"
    [ "<script>"
    , "                        function initializeMermaid() \x7b"
    , "                            mermaid.initialize(\x7bstartOnLoad:true\x7d)"
    , "                        \x7d"
    , ""
    , "                        if (document.readyState === \"complete\" || document.readyState === \"interactive\") \x7b"
    , "                            setTimeout(initializeMermaid, 1);"
    , "                        \x7d else \x7b"
    , "                            document.addEventListener(\"DOMContentLoaded\", initializeMermaid);"
    , "                        \x7d"
    , "                </script>" ]

/-- The trailer appended when `is_mermaid` holds (lines 79-97).  Accessing the
unset `mermaid_js_url` attribute raises `AttributeError`. -/
def trailer (p : Preproc) : Except PyErr (List String) :=
  match p.mermaid_js_url with
  | none => Except.error PyErr.attributeError
  | some none => Except.ok ["", deferredScript]
  | some (some u) =>
    if u ≠ "" then Except.ok ["", scriptSrc u, scriptSync]
    else Except.ok ["", deferredScript]

/-- `MermaidPreprocessor.run` (lines 40-99). -/
def run (p : Preproc) (lines : List String) : Except PyErr (List String) :=
  if (loop initState lines).2.is_mermaid then
    (trailer p).map (fun t => (loop initState lines).1 ++ t)
  else
    Except.ok (loop initState lines).1

end MermaidPreprocessor

/-- A preprocessor constructed with the `None` sentinel for `mermaid_js_url`. -/
def sentinelPre : Preproc :=
  MermaidPreprocessor.init { mermaid_version := "latest", mermaid_js_url := none }

/-- Exchange the two fence glyphs, leaving every other character unchanged. -/
def swapChar (c : Char) : Char :=
  if c = '~' then backquote else if c = backquote then '~' else c

/-- Apply `swapChar` to every character of a line. -/
def swapLine (s : String) : String := String.mk (s.data.map swapChar)

/-- Apply `swapChar` to every character of a recorded sign. -/
def swapStr (s : String) : String := String.mk (s.data.map swapChar)

/-- The document transformation described by the glyph-independence claim:
walk the scan machine over the document and replace exactly the recognized
opening fences and their matching closing fences by the opposite-glyph
fences, leaving all other lines (content and outside lines) unchanged. -/
def swapFencesAux : Bool → String → List String → List String
  | _, _, [] => []
  | false, sign, l :: ls =>
    match matchOpen l with
    | some g => swapLine l :: swapFencesAux true (String.mk [g]) ls
    | none => l :: swapFencesAux false sign ls
  | true, sign, l :: ls =>
    if matchClose sign l then swapLine l :: swapFencesAux false sign ls
    else l :: swapFencesAux true sign ls

def swapFences (ls : List String) : List String := swapFencesAux false "" ls

/-- Side condition under which the glyph swap is harmless: no content line
inside a block would match the closing-fence pattern of the swapped glyph. -/
def glyphSafe : Bool → String → List String → Bool
  | _, _, [] => true
  | false, sign, l :: ls =>
    match matchOpen l with
    | some g => glyphSafe true (String.mk [g]) ls
    | none => glyphSafe false sign ls
  | true, sign, l :: ls =>
    if matchClose sign l then glyphSafe false sign ls
    else !matchClose (swapStr sign) l && glyphSafe true sign ls

/-- The opening-fence pattern exactly as the claim words it: optional leading
whitespace, three glyphs, optional whitespace, the word "mermaid" in any
letter case, optional trailing whitespace, nothing else. -/
def claimedOpenFence (s : String) : Bool :=
  match s.data.dropWhile isWS with
  | c1 :: c2 :: c3 :: rest =>
    isGlyph c1 && isGlyph c2 && isGlyph c3 &&
      (let r := rest.dropWhile isWS
       (r.take 7).map Char.toLower = ['m', 'e', 'r', 'm', 'a', 'i', 'd']
         && (r.drop 7).all isWS)
  | _ => false

/-- The opening-fence pattern the source actually recognizes, stated
declaratively: no leading whitespace, three glyph characters (each
independently a tilde or a backtick), optional spaces/tabs, `M` or `m`
(only the first letter's case is free) followed by the lowercase letters
`ermaid`, then spaces/tabs, optionally ending in one final newline. -/
def amendedOpenFence (s : String) : Prop :=
  ∃ g1 g2 g3 h ws tail,
    isGlyph g1 = true ∧ isGlyph g2 = true ∧ isGlyph g3 = true ∧
    (h = 'M' ∨ h = 'm') ∧ (∀ c ∈ ws, isWS c = true) ∧
    (∃ ws2, (∀ c ∈ ws2, isWS c = true) ∧ (tail = ws2 ∨ tail = ws2 ++ ['\n'])) ∧
    s.data = g1 :: g2 :: g3 ::
      (ws ++ h :: 'e' :: 'r' :: 'm' :: 'a' :: 'i' :: 'd' :: tail)

end MdMermaid

namespace MdMermaid

open MermaidPreprocessor

theorem loop_cons (st : ScanState) (l : String) (ls : List String) :
    loop st (l :: ls) =
      ((step st l).1 ++ (loop (step st l).2 ls).1, (loop (step st l).2 ls).2) := rfl

theorem step_no_open (st : ScanState) (l : String) (hin : st.in_mermaid_code = false)
    (h : matchOpen l = none) : step st l = ([l], { st with old_line := l }) := by
  simp [step, hin, h]

theorem no_fence_loop (ls : List String) : ∀ st : ScanState, st.in_mermaid_code = false →
    (∀ l ∈ ls, matchOpen l = none) →
    (loop st ls).1 = ls ∧ (loop st ls).2.in_mermaid_code = false ∧
      (loop st ls).2.is_mermaid = st.is_mermaid := by
  induction ls with
  | nil => intro st hin _; simp [loop, hin]
  | cons l ls ih =>
    intro st hin hall
    rw [loop_cons, step_no_open st l hin (hall l (by simp))]
    have h2 := ih { st with old_line := l } (by simpa using hin)
      (fun x hx => hall x (by simp [hx]))
    simpa using ⟨h2.1, h2.2.1, h2.2.2⟩

theorem run_no_fence (p : Preproc) (ls : List String)
    (h : ∀ l ∈ ls, matchOpen l = none) : run p ls = Except.ok ls := by
  have h2 := no_fence_loop ls initState rfl h
  have h3 : (loop initState ls).2.is_mermaid = false := by rw [h2.2.2]; rfl
  simp [run, h2.1, h3]

theorem step_content (st : ScanState) (l : String) (hin : st.in_mermaid_code = true)
    (h : matchClose st.mermaid_sign l = false) :
    step st l = ([rstrip l], { st with old_line := l }) := by
  simp [step, hin, h]

theorem in_block_loop (ls : List String) : ∀ st : ScanState, st.in_mermaid_code = true →
    (∀ l ∈ ls, matchClose st.mermaid_sign l = false) →
    (loop st ls).1 = ls.map rstrip ∧ (loop st ls).2.is_mermaid = st.is_mermaid ∧
      (loop st ls).2.in_mermaid_code = true ∧
      (loop st ls).2.mermaid_sign = st.mermaid_sign := by
  induction ls with
  | nil => intro st hin _; simp [loop, hin]
  | cons l ls ih =>
    intro st hin hall
    rw [loop_cons, step_content st l hin (hall l (by simp))]
    have h2 := ih { st with old_line := l } (by simpa using hin)
      (fun x hx => by simpa using hall x (by simp [hx]))
    simpa using ⟨h2.1, h2.2.1, h2.2.2.1, h2.2.2.2⟩

theorem step_is_mermaid_mono (st : ScanState) (l : String) (h : st.is_mermaid = true) :
    (step st l).2.is_mermaid = true := by
  unfold step
  split
  · split <;> simp [h]
  · split <;> simp [h]

theorem loop_is_mermaid_mono (ls : List String) : ∀ st : ScanState, st.is_mermaid = true →
    (loop st ls).2.is_mermaid = true := by
  induction ls with
  | nil => intro st h; simpa [loop] using h
  | cons l ls ih =>
    intro st h
    rw [loop_cons]
    exact ih _ (step_is_mermaid_mono st l h)

theorem open_found_loop (ls : List String) : ∀ st : ScanState, st.in_mermaid_code = false →
    (∃ l ∈ ls, (matchOpen l).isSome = true) → (loop st ls).2.is_mermaid = true := by
  induction ls with
  | nil => intro st _ h; simp at h
  | cons l ls ih =>
    intro st hin h
    rw [loop_cons]
    cases hm : matchOpen l with
    | some g =>
      apply loop_is_mermaid_mono
      simp [step, hin, hm]
    | none =>
      rw [step_no_open st l hin hm]
      apply ih _ (by simpa using hin)
      rcases h with ⟨x, hx, hopen⟩
      rcases List.mem_cons.mp hx with rfl | hx'
      · rw [hm] at hopen; simp at hopen
      · exact ⟨x, hx', hopen⟩

theorem trailer_ok (p : Preproc) (v : Option String) (hv : p.mermaid_js_url = some v) :
    ∃ t, trailer p = Except.ok t := by
  unfold trailer
  rw [hv]
  rcases v with _ | u
  · exact ⟨_, rfl⟩
  · dsimp only
    split <;> exact ⟨_, rfl⟩

/-- C3: for every document in which no line matches the opening-fence
pattern, `run` returns the input sequence unchanged, element for element,
with nothing appended. -/
theorem no_open_fence_identity (p : Preproc) (ls : List String)
    (h : ∀ l ∈ ls, matchOpen l = none) : run p ls = Except.ok ls :=
  run_no_fence p ls h

theorem no_open_fence_identity_witness :
    run sentinelPre ["# title", "plain text", "    indented"] =
      Except.ok ["# title", "plain text", "    indented"] :=
  no_open_fence_identity sentinelPre _ (by decide)

/-- C1 (refuting theorem, code bug): `run` does *not* complete without
exception for every valid configuration.  With `mermaid_js_url` a non-empty
string the constructor assigns `mermaid_url` instead of `mermaid_js_url`
(line 34), so `run` on a document containing a mermaid block raises
`AttributeError`.  Conversely, for the sentinel and empty-string
configurations `run` always returns normally. -/
theorem run_raises_on_nonempty_url :
    run (init { mermaid_version := "latest",
                mermaid_js_url := some "https://example.com/mermaid.js" })
        ["```mermaid", "A-->B;", "```"] = Except.error PyErr.attributeError ∧
    ∀ (c : Config) (ls : List String),
      c.mermaid_js_url = none ∨ c.mermaid_js_url = some "" →
      ∃ out, run (init c) ls = Except.ok out := by
  constructor
  · rfl
  · intro c ls h
    have hset : ∃ v, (init c).mermaid_js_url = some v := by
      rcases h with h | h
      · exact ⟨none, by simp [init, h]⟩
      · simp only [init, h]
        rw [if_neg (by decide)]
        split <;> exact ⟨_, rfl⟩
    rcases hset with ⟨v, hv⟩
    rcases trailer_ok (init c) v hv with ⟨t, ht⟩
    unfold run
    split
    · rw [ht]
      exact ⟨_, rfl⟩
    · exact ⟨_, rfl⟩

theorem run_raises_on_nonempty_url_witness :
    ∃ out, run (init { mermaid_version := "latest", mermaid_js_url := none })
      ["```mermaid"] = Except.ok out :=
  run_raises_on_nonempty_url.2 _ ["```mermaid"] (Or.inl rfl)

end MdMermaid

namespace MdMermaid

open MermaidPreprocessor

/-- C5: a line inside a mermaid block that is not the closing fence is
emitted right-trimmed but otherwise unchanged, and a line outside any block
that is not an opening fence is emitted completely unmodified. -/
theorem passthrough_lines (st : ScanState) (line : String) :
    (st.in_mermaid_code = true → matchClose st.mermaid_sign line = false →
      (step st line).1 = [rstrip line]) ∧
    (st.in_mermaid_code = false → matchOpen line = none →
      (step st line).1 = [line]) := by
  constructor
  · intro h1 h2; simp [step, h1, h2]
  · intro h1 h2; simp [step, h1, h2]

theorem passthrough_lines_witness :
    (step { old_line := "", mermaid_sign := "`", in_mermaid_code := true,
            is_mermaid := true } "A-->B;  ").1 = ["A-->B;"] ∧
    (step { old_line := "", mermaid_sign := "`", in_mermaid_code := true,
            is_mermaid := true } "x\xa0").1 = ["x"] ∧
    (step initState "plain text").1 = ["plain text"] := by
  refine ⟨?_, ?_, ?_⟩
  · have h := (passthrough_lines
      { old_line := "", mermaid_sign := "`", in_mermaid_code := true,
        is_mermaid := true } "A-->B;  ").1 rfl (by decide)
    rw [h]; decide
  · have h := (passthrough_lines
      { old_line := "", mermaid_sign := "`", in_mermaid_code := true,
        is_mermaid := true } "x\xa0").1 rfl (by decide)
    rw [h]; decide
  · exact (passthrough_lines initState "plain text").2 rfl (by decide)

/-- C2 (evidence theorem, code bug): URL resolution.  A non-empty
`mermaid_js_url` raises `AttributeError` instead of producing the script tag
(the constructor stores it in `mermaid_url`); the empty-URL configurations
resolve to the unversioned or versioned CDN URL followed by the synchronous
init line, and the sentinel produces the deferred script block. -/
theorem url_resolution :
    run (init { mermaid_version := "latest",
                mermaid_js_url := some "https://example.com/mermaid.js" })
        ["```mermaid", "A-->B;", "```"] = Except.error PyErr.attributeError ∧
    run (init { mermaid_version := "latest", mermaid_js_url := some "" })
        ["```mermaid", "A-->B;", "```"] =
      Except.ok [divOpen, "A-->B;", divClose, "", "",
        "<script src=\"https://unpkg.com/mermaid/dist/mermaid.min.js\"></script>",
        "<script>mermaid.initialize(\x7bstartOnLoad:true\x7d);</script>"] ∧
    run (init { mermaid_version := "", mermaid_js_url := some "" })
        ["```mermaid", "A-->B;", "```"] =
      Except.ok [divOpen, "A-->B;", divClose, "", "",
        "<script src=\"https://unpkg.com/mermaid/dist/mermaid.min.js\"></script>",
        "<script>mermaid.initialize(\x7bstartOnLoad:true\x7d);</script>"] ∧
    run (init { mermaid_version := "2.1.0", mermaid_js_url := some "" })
        ["```mermaid", "A-->B;", "```"] =
      Except.ok [divOpen, "A-->B;", divClose, "", "",
        "<script src=\"https://unpkg.com/mermaid@2.1.0/dist/mermaid.min.js\"></script>",
        "<script>mermaid.initialize(\x7bstartOnLoad:true\x7d);</script>"] ∧
    run (init { mermaid_version := "latest", mermaid_js_url := none })
        ["```mermaid", "A-->B;", "```"] =
      Except.ok [divOpen, "A-->B;", divClose, "", "", deferredScript] :=
  ⟨rfl, rfl, rfl, rfl, rfl⟩

set_option maxRecDepth 8192 in
/-- C8 (counterexample): re-running does *not* always behave as claimed.
First part: on a document whose first-run output contains no fence-shaped
line, the second run returns the output unchanged — in particular it appends
*no* second initialization block (the output still contains exactly one).
Second part: a first-run output can contain a new opening fence (in-block
content `~~~mermaid` is emitted verbatim), so the second run does find new
fences on some documents. -/
theorem rerun_counterexample :
    (run sentinelPre ["~~~mermaid", "a", "~~~"] =
        Except.ok [divOpen, "a", divClose, "", "", deferredScript] ∧
      run sentinelPre [divOpen, "a", divClose, "", "", deferredScript] =
        Except.ok [divOpen, "a", divClose, "", "", deferredScript] ∧
      List.count deferredScript [divOpen, "a", divClose, "", "", deferredScript]
        = 1) ∧
    (run sentinelPre ["```mermaid", "~~~mermaid", "```", "x"] =
        Except.ok [divOpen, "~~~mermaid", divClose, "", "x", "", deferredScript] ∧
      "~~~mermaid" ∈ [divOpen, "~~~mermaid", divClose, "", "x", "", deferredScript] ∧
      (matchOpen "~~~mermaid").isSome = true) := by
  refine ⟨⟨rfl, rfl, ?_⟩, rfl, by decide, rfl⟩
  decide

/-- C8 (amended): applying `run` a second time to a first run's output, when
no line of that output matches the opening-fence pattern, re-wraps nothing
and returns the output unchanged — in particular no second initialization
block is appended, because no fence was found. -/
theorem rerun_amended (p p' : Preproc) (ls out : List String)
    (_h1 : run p ls = Except.ok out) (h2 : ∀ l ∈ out, matchOpen l = none) :
    run p' out = Except.ok out :=
  run_no_fence p' out h2

theorem rerun_amended_witness :
    run sentinelPre [divOpen, "a", divClose, "", "", deferredScript] =
      Except.ok [divOpen, "a", divClose, "", "", deferredScript] :=
  rerun_amended sentinelPre sentinelPre ["~~~mermaid", "a", "~~~"] _ rfl (by decide)

/-- C9: mixed-glyph opening fences are accepted (each of the three fence
characters is independently a tilde or a backtick), and the recorded sign,
used to match the closing fence, is always the third fence character (the
regex group captures the last repetition).  Concretely, `~~`mermaid` opens a
block that `` ``` `` closes and `~~~` does not. -/
theorem mixed_glyph_fence :
    matchOpen "~~`mermaid" = some backquote ∧
    matchOpen "`~~mermaid" = some '~' ∧
    (step initState "~~`mermaid").2.mermaid_sign = "`" ∧
    run sentinelPre ["~~`mermaid", "x", "```"] =
      Except.ok [divOpen, "x", divClose, "", "", deferredScript] ∧
    matchClose "`" "~~~" = false ∧
    ∀ (s : String) (g : Char), matchOpen s = some g → s.data.get? 2 = some g := by
  refine ⟨rfl, rfl, rfl, rfl, rfl, ?_⟩
  intro s g h
  unfold matchOpen at h
  rcases hd : s.data with _ | ⟨c1, _ | ⟨c2, _ | ⟨c3, rest⟩⟩⟩ <;> rw [hd] at h
  · simp at h
  · simp at h
  · simp at h
  · dsimp only at h
    split at h
    · split at h
      · split at h
        · injection h with h'
          rw [h']
          rfl
        · simp at h
      · simp at h
    · simp at h

theorem mixed_glyph_fence_witness :
    "~~`mermaid".data.get? 2 = some backquote :=
  mixed_glyph_fence.2.2.2.2.2 "~~`mermaid" backquote rfl

end MdMermaid

namespace MdMermaid

open MermaidPreprocessor

/-- C6: a block opened with three backticks whose following lines never
match three of the recorded (backtick) glyph never closes: the whole rest of
the document — including any later tilde-fenced block — is emitted as
right-trimmed block content, no `</div>` is produced by the machine, and
only the configured trailer follows. -/
theorem unclosed_backtick_block (p : Preproc) (tail rest : List String)
    (ht : trailer p = Except.ok tail)
    (h : ∀ l ∈ rest, matchClose "`" l = false) :
    run p ("```mermaid" :: rest) =
      Except.ok (divOpen :: (rest.map rstrip ++ tail)) := by
  have hstep : step initState "```mermaid" =
      ([divOpen],
        { old_line := "```mermaid", mermaid_sign := "`",
          in_mermaid_code := true, is_mermaid := true }) := by decide
  have hblk := in_block_loop rest
    { old_line := "```mermaid", mermaid_sign := "`",
      in_mermaid_code := true, is_mermaid := true } rfl h
  have hloop := loop_cons initState "```mermaid" rest
  rw [hstep] at hloop
  have hm : (loop initState ("```mermaid" :: rest)).2.is_mermaid = true := by
    rw [hloop]
    exact hblk.2.1
  have hout : (loop initState ("```mermaid" :: rest)).1 =
      divOpen :: rest.map rstrip := by
    rw [hloop]
    simp [hblk.1]
  simp [run, hm, hout, ht, Except.map]

set_option maxRecDepth 8192 in
theorem unclosed_backtick_block_witness :
    run sentinelPre
        ["```mermaid", "~~~", "A-->B;", "~~~mermaid", "x \xa0", "~~~"] =
      Except.ok [divOpen, "~~~", "A-->B;", "~~~mermaid", "x", "~~~", "",
        deferredScript] := by
  have h := unclosed_backtick_block sentinelPre ["", deferredScript]
    ["~~~", "A-->B;", "~~~mermaid", "x \xa0", "~~~"] rfl (by decide)
  rw [h]
  decide

/-- C10: with the "no value" sentinel configured and at least one line
matching the opening-fence pattern, the last element of `run`'s result is
the deferred-initialization script: a single string that contains embedded
newline characters, so the output is not strictly a sequence of
single-text-line strings. -/
theorem multiline_last_element (doc : List String)
    (h : ∃ l ∈ doc, (matchOpen l).isSome = true) :
    ∃ out, run sentinelPre doc = Except.ok out ∧
      out.getLast? = some deferredScript ∧
      deferredScript.data.contains '\n' = true := by
  have hm := open_found_loop doc initState rfl h
  refine ⟨(loop initState doc).1 ++ ["", deferredScript], ?_, ?_, by decide⟩
  · simp [run, hm]
    rfl
  · rw [List.getLast?_append_cons]
    rfl

theorem multiline_last_element_witness :
    ∃ out, run sentinelPre ["```mermaid", "A-->B;", "```"] = Except.ok out ∧
      out.getLast? = some deferredScript ∧
      deferredScript.data.contains '\n' = true :=
  multiline_last_element ["```mermaid", "A-->B;", "```"]
    ⟨"```mermaid", by decide, rfl⟩

end MdMermaid

namespace MdMermaid

open MermaidPreprocessor

theorem wsTail_of_append (t : List Char) (hT : t = [] ∨ t = ['\n']) :
    ∀ ws : List Char, (∀ c ∈ ws, isWS c = true) → wsTail (ws ++ t) = true := by
  intro ws
  induction ws with
  | nil =>
    intro _
    rcases hT with rfl | rfl <;> rfl
  | cons c ws ih =>
    intro hall
    have hc : isWS c = true := hall c (by simp)
    have ih' := ih (fun x hx => hall x (by simp [hx]))
    rw [List.cons_append]
    cases hws : ws ++ t with
    | nil => simp [wsTail, hc]
    | cons d ds =>
      rw [hws] at ih'
      simp [wsTail, hc, ih']

theorem wsTail_decompose : ∀ cs : List Char, wsTail cs = true →
    ∃ ws, (∀ c ∈ ws, isWS c = true) ∧ (cs = ws ∨ cs = ws ++ ['\n']) := by
  intro cs
  induction cs with
  | nil => intro _; exact ⟨[], by simp, Or.inl rfl⟩
  | cons c cs ih =>
    intro h
    cases cs with
    | nil =>
      rw [show wsTail [c] = (decide (c = '\n') || isWS c) from rfl] at h
      simp only [Bool.or_eq_true, decide_eq_true_eq] at h
      rcases h with rfl | h
      · exact ⟨[], by simp, Or.inr rfl⟩
      · exact ⟨[c], by simpa using h, Or.inl rfl⟩
    | cons c' cs' =>
      rw [show wsTail (c :: c' :: cs') = (isWS c && wsTail (c' :: cs')) from rfl,
        Bool.and_eq_true] at h
      obtain ⟨ws, hws, hcase⟩ := ih h.2
      refine ⟨c :: ws, ?_, ?_⟩
      · intro x hx
        rcases List.mem_cons.mp hx with rfl | hx'
        · exact h.1
        · exact hws x hx'
      · rcases hcase with h' | h'
        · exact Or.inl (by rw [h'])
        · exact Or.inr (by rw [h']; rfl)

theorem dropWhile_ws_append (ws : List Char) (h : ∀ c ∈ ws, isWS c = true)
    (l : List Char) : (ws ++ l).dropWhile isWS = l.dropWhile isWS := by
  induction ws with
  | nil => rfl
  | cons c ws ih =>
    have hc := h c (by simp)
    simp [List.dropWhile_cons, hc, ih (fun x hx => h x (by simp [hx]))]

/-- C4 (amended): a line is recognized as an opening fence iff it has *no*
leading whitespace, starts with exactly three glyph characters (each
independently a tilde or a backtick), then optional spaces/tabs, then `M` or
`m` followed by the lowercase letters `ermaid` (only the first letter's case
is free), then optional spaces/tabs, optionally ending in one final
newline. -/
theorem openFence_amended (s : String) :
    (matchOpen s).isSome = true ↔ amendedOpenFence s := by
  constructor
  · intro h
    unfold matchOpen at h
    rcases hd : s.data with _ | ⟨c1, _ | ⟨c2, _ | ⟨c3, rest⟩⟩⟩ <;> rw [hd] at h
    · simp at h
    · simp at h
    · simp at h
    · dsimp only at h
      split at h
      · rename_i hg
        split at h
        · rename_i m rest2 hdw
          split at h
          · rename_i hcond
            rw [Bool.and_eq_true, Bool.and_eq_true] at hg hcond
            have hm : m = 'M' ∨ m = 'm' := by
              have h' := hcond.1.1
              simpa using h'
            have htake : rest2.take 6 = ['e', 'r', 'm', 'a', 'i', 'd'] := by
              have h' := hcond.1.2
              simpa using h'
            obtain ⟨ws2, hws2, htail⟩ := wsTail_decompose (rest2.drop 6) hcond.2
            obtain ⟨ws1, hws1, hr⟩ :
                ∃ ws1, (∀ c ∈ ws1, isWS c = true) ∧ rest = ws1 ++ m :: rest2 := by
              refine ⟨rest.takeWhile isWS,
                fun c hc => List.mem_takeWhile_imp hc, ?_⟩
              conv_lhs => rw [← List.takeWhile_append_dropWhile isWS rest]
              rw [hdw]
            have hr2 : rest2 = 'e' :: 'r' :: 'm' :: 'a' :: 'i' :: 'd' :: rest2.drop 6 := by
              have h' := List.take_append_drop 6 rest2
              rw [htake] at h'
              exact h'.symm
            refine ⟨c1, c2, c3, m, ws1, rest2.drop 6,
              hg.1.1, hg.1.2, hg.2, hm, hws1, ⟨ws2, hws2, htail⟩, ?_⟩
            rw [hd, hr]
            conv_lhs => rw [hr2]
          · simp at h
        · simp at h
      · simp at h
  · rintro ⟨g1, g2, g3, m, ws, tail, hg1, hg2, hg3, hm, hws,
      ⟨ws2, hws2, htail⟩, hdata⟩
    unfold matchOpen
    rw [hdata]
    dsimp only
    rw [if_pos (show (isGlyph g1 && isGlyph g2 && isGlyph g3) = true by
      simp [hg1, hg2, hg3])]
    have hmws : isWS m = false := by rcases hm with rfl | rfl <;> rfl
    have hdw : (ws ++ m :: 'e' :: 'r' :: 'm' :: 'a' :: 'i' :: 'd' :: tail).dropWhile isWS
        = m :: 'e' :: 'r' :: 'm' :: 'a' :: 'i' :: 'd' :: tail := by
      rw [dropWhile_ws_append ws hws, List.dropWhile_cons, hmws]
      simp
    rw [hdw]
    dsimp only
    have htail' : wsTail tail = true := by
      rcases htail with h' | h'
      · rw [h']
        simpa using wsTail_of_append [] (Or.inl rfl) ws2 hws2
      · rw [h']
        exact wsTail_of_append ['\n'] (Or.inr rfl) ws2 hws2
    have htk : List.take 6 ('e' :: 'r' :: 'm' :: 'a' :: 'i' :: 'd' :: tail)
        = ['e', 'r', 'm', 'a', 'i', 'd'] := rfl
    have hdr : List.drop 6 ('e' :: 'r' :: 'm' :: 'a' :: 'i' :: 'd' :: tail) = tail := rfl
    rw [if_pos (show ((m = 'M' || m = 'm')
        && List.take 6 ('e' :: 'r' :: 'm' :: 'a' :: 'i' :: 'd' :: tail)
            = ['e', 'r', 'm', 'a', 'i', 'd']
        && wsTail (List.drop 6 ('e' :: 'r' :: 'm' :: 'a' :: 'i' :: 'd' :: tail))) = true by
      rw [htk, hdr]
      rcases hm with rfl | rfl <;> simp [htail'])]
    rfl

/-- C4 (counterexample): the claimed pattern accepts fully-uppercase
`MERMAID` and a leading space, but the source regex accepts neither. -/
theorem openFence_counterexample :
    claimedOpenFence "```MERMAID" = true ∧ matchOpen "```MERMAID" = none ∧
    claimedOpenFence " ```mermaid" = true ∧ matchOpen " ```mermaid" = none := by
  decide

end MdMermaid

namespace MdMermaid

open MermaidPreprocessor

theorem swapChar_invol (c : Char) : swapChar (swapChar c) = c := by
  by_cases h1 : c = '~'
  · subst h1; rfl
  · by_cases h2 : c = backquote
    · subst h2; rfl
    · simp [swapChar, h1, h2]

theorem swapChar_inj (a b : Char) (h : swapChar a = swapChar b) : a = b := by
  rw [← swapChar_invol a, h, swapChar_invol]

theorem swapChar_fix (c : Char) (h1 : ¬ c = '~') (h2 : ¬ c = backquote) :
    swapChar c = c := by
  simp [swapChar, h1, h2]

theorem beq_swapChar (a b : Char) : (swapChar a == swapChar b) = (a == b) := by
  by_cases h : a = b
  · rw [h]
    simp
  · have h' : ¬ swapChar a = swapChar b := fun hh => h (swapChar_inj a b hh)
    rw [beq_eq_false_iff_ne.mpr h', beq_eq_false_iff_ne.mpr h]

theorem isWS_swapChar (c : Char) : isWS (swapChar c) = isWS c := by
  by_cases h1 : c = '~'
  · subst h1; rfl
  · by_cases h2 : c = backquote
    · subst h2; rfl
    · rw [swapChar_fix c h1 h2]

theorem isGlyph_swapChar (c : Char) : isGlyph (swapChar c) = isGlyph c := by
  by_cases h1 : c = '~'
  · subst h1; rfl
  · by_cases h2 : c = backquote
    · subst h2; rfl
    · rw [swapChar_fix c h1 h2]

theorem wsTail_map_swap : ∀ cs : List Char, wsTail (cs.map swapChar) = wsTail cs := by
  intro cs
  induction cs with
  | nil => rfl
  | cons c cs ih =>
    cases cs with
    | nil =>
      rw [List.map_cons, List.map_nil,
        show wsTail [swapChar c] = (decide (swapChar c = '\n') || isWS (swapChar c)) from rfl,
        show wsTail [c] = (decide (c = '\n') || isWS c) from rfl,
        isWS_swapChar]
      by_cases h1 : c = '~'
      · subst h1; rfl
      · by_cases h2 : c = backquote
        · subst h2; rfl
        · rw [swapChar_fix c h1 h2]
    | cons c' cs' =>
      rw [List.map_cons, List.map_cons,
        show wsTail (swapChar c :: swapChar c' :: cs'.map swapChar)
          = (isWS (swapChar c) && wsTail (swapChar c' :: cs'.map swapChar)) from rfl,
        show wsTail (c :: c' :: cs') = (isWS c && wsTail (c' :: cs')) from rfl,
        isWS_swapChar]
      rw [List.map_cons] at ih
      rw [ih]

theorem dropWhile_map_swap (l : List Char) :
    (l.map swapChar).dropWhile isWS = (l.dropWhile isWS).map swapChar := by
  have h : (isWS ∘ swapChar) = isWS := funext isWS_swapChar
  rw [List.dropWhile_map, h]

theorem map_swap_map_swap (l : List Char) : (l.map swapChar).map swapChar = l := by
  rw [List.map_map]
  have h : swapChar ∘ swapChar = id := funext swapChar_invol
  rw [h, List.map_id]

theorem open_cond_swap (m : Char) :
    (decide (swapChar m = 'M') || decide (swapChar m = 'm'))
      = (decide (m = 'M') || decide (m = 'm')) := by
  by_cases h1 : m = '~'
  · subst h1; rfl
  · by_cases h2 : m = backquote
    · subst h2; rfl
    · rw [swapChar_fix m h1 h2]

theorem take_ermaid_swap (l : List Char) :
    decide (List.take 6 (l.map swapChar) = ['e', 'r', 'm', 'a', 'i', 'd'])
      = decide (List.take 6 l = ['e', 'r', 'm', 'a', 'i', 'd']) := by
  apply decide_eq_decide.mpr
  rw [← List.map_take]
  constructor
  · intro h
    have h' := congrArg (List.map swapChar) h
    rw [map_swap_map_swap] at h'
    exact h'
  · intro h
    rw [h]
    rfl

theorem matchOpen_swapLine (l : String) :
    matchOpen (swapLine l) = (matchOpen l).map swapChar := by
  unfold matchOpen swapLine
  rcases l.data with _ | ⟨c1, _ | ⟨c2, _ | ⟨c3, rest⟩⟩⟩
  · rfl
  · rfl
  · rfl
  · rw [show (String.mk ((c1 :: c2 :: c3 :: rest).map swapChar)).data
      = swapChar c1 :: swapChar c2 :: swapChar c3 :: rest.map swapChar from rfl]
    dsimp only
    rw [isGlyph_swapChar, isGlyph_swapChar, isGlyph_swapChar]
    by_cases hg : (isGlyph c1 && isGlyph c2 && isGlyph c3) = true
    · rw [if_pos hg, if_pos hg, dropWhile_map_swap]
      cases hdw : rest.dropWhile isWS with
      | nil => rfl
      | cons m rest2 =>
        rw [List.map_cons]
        dsimp only
        rw [open_cond_swap m, take_ermaid_swap rest2, ← List.map_drop,
          wsTail_map_swap]
        by_cases hc : ((decide (m = 'M') || decide (m = 'm'))
            && decide (List.take 6 rest2 = ['e', 'r', 'm', 'a', 'i', 'd'])
            && wsTail (List.drop 6 rest2)) = true
        · rw [if_pos hc, if_pos hc]
          rfl
        · rw [if_neg hc, if_neg hc]
          rfl
    · rw [if_neg hg, if_neg hg]
      rfl

theorem contains_map_swap (xs : List Char) (c : Char) :
    (xs.map swapChar).contains (swapChar c) = xs.contains c := by
  induction xs with
  | nil => rfl
  | cons a as ih =>
    rw [List.map_cons, List.contains_cons, List.contains_cons, beq_swapChar, ih]

theorem matchClose_swap (sign l : String) :
    matchClose (swapStr sign) (swapLine l) = matchClose sign l := by
  unfold matchClose swapStr swapLine
  rcases l.data with _ | ⟨c1, _ | ⟨c2, _ | ⟨c3, rest⟩⟩⟩
  · rfl
  · rfl
  · rfl
  · rw [show (String.mk ((c1 :: c2 :: c3 :: rest).map swapChar)).data
      = swapChar c1 :: swapChar c2 :: swapChar c3 :: rest.map swapChar from rfl]
    dsimp only
    rw [contains_map_swap, contains_map_swap, contains_map_swap, wsTail_map_swap]

theorem isBlank_swapLine (l : String) : isBlank (swapLine l) = isBlank l := by
  unfold isBlank swapLine
  exact wsTail_map_swap l.data

end MdMermaid

namespace MdMermaid

open MermaidPreprocessor

theorem swapFencesAux_nil (b : Bool) (s : String) : swapFencesAux b s [] = [] := by
  cases b <;> rfl

theorem swapFencesAux_open (s l : String) (ls : List String) (g : Char)
    (hm : matchOpen l = some g) :
    swapFencesAux false s (l :: ls)
      = swapLine l :: swapFencesAux true (String.mk [g]) ls := by
  simp only [swapFencesAux, hm]

theorem swapFencesAux_noopen (s l : String) (ls : List String)
    (hm : matchOpen l = none) :
    swapFencesAux false s (l :: ls) = l :: swapFencesAux false s ls := by
  simp only [swapFencesAux, hm]

theorem swapFencesAux_close (s l : String) (ls : List String)
    (hc : matchClose s l = true) :
    swapFencesAux true s (l :: ls) = swapLine l :: swapFencesAux false s ls := by
  simp only [swapFencesAux, hc, if_true]

theorem swapFencesAux_noclose (s l : String) (ls : List String)
    (hc : matchClose s l = false) :
    swapFencesAux true s (l :: ls) = l :: swapFencesAux true s ls := by
  simp only [swapFencesAux, hc, Bool.false_eq_true, if_false]

theorem glyphSafe_open (s l : String) (ls : List String) (g : Char)
    (hm : matchOpen l = some g) :
    glyphSafe false s (l :: ls) = glyphSafe true (String.mk [g]) ls := by
  simp only [glyphSafe, hm]

theorem glyphSafe_noopen (s l : String) (ls : List String)
    (hm : matchOpen l = none) :
    glyphSafe false s (l :: ls) = glyphSafe false s ls := by
  simp only [glyphSafe, hm]

theorem glyphSafe_close (s l : String) (ls : List String)
    (hc : matchClose s l = true) :
    glyphSafe true s (l :: ls) = glyphSafe false s ls := by
  simp only [glyphSafe, hc, if_true]

theorem glyphSafe_noclose (s l : String) (ls : List String)
    (hc : matchClose s l = false) :
    glyphSafe true s (l :: ls)
      = (!matchClose (swapStr s) l && glyphSafe true s ls) := by
  simp only [glyphSafe, hc, Bool.false_eq_true, if_false]

theorem step_open (st : ScanState) (l : String) (g : Char)
    (hin : st.in_mermaid_code = false) (hm : matchOpen l = some g) :
    step st l = ((if isBlank st.old_line then [] else [""]) ++ [divOpen],
      { old_line := l, mermaid_sign := String.mk [g],
        in_mermaid_code := true, is_mermaid := true }) := by
  simp [step, hin, hm]

theorem step_close (st : ScanState) (l : String)
    (hin : st.in_mermaid_code = true) (hc : matchClose st.mermaid_sign l = true) :
    step st l = ([divClose, ""],
      { st with in_mermaid_code := false, old_line := l }) := by
  simp [step, hin, hc]

theorem loop_swap : ∀ (ls : List String) (st1 st2 : ScanState),
    st2.in_mermaid_code = st1.in_mermaid_code →
    st2.is_mermaid = st1.is_mermaid →
    isBlank st2.old_line = isBlank st1.old_line →
    st2.mermaid_sign = swapStr st1.mermaid_sign →
    glyphSafe st1.in_mermaid_code st1.mermaid_sign ls = true →
    (loop st2 (swapFencesAux st1.in_mermaid_code st1.mermaid_sign ls)).1
        = (loop st1 ls).1 ∧
      (loop st2 (swapFencesAux st1.in_mermaid_code st1.mermaid_sign ls)).2.is_mermaid
        = (loop st1 ls).2.is_mermaid := by
  intro ls
  induction ls with
  | nil =>
    intro st1 st2 _ h2 _ _ _
    rw [swapFencesAux_nil]
    exact ⟨rfl, h2⟩
  | cons l ls ih =>
    intro st1 st2 h1 h2 h3 h4 h5
    cases hcode : st1.in_mermaid_code with
    | false =>
      rw [hcode] at h1 h5
      cases hm : matchOpen l with
      | some g =>
        rw [glyphSafe_open _ _ _ g hm] at h5
        rw [swapFencesAux_open _ _ _ g hm]
        have hm2 : matchOpen (swapLine l) = some (swapChar g) := by
          rw [matchOpen_swapLine, hm]
          rfl
        rw [loop_cons st2, loop_cons st1, step_open st1 l g hcode hm,
          step_open st2 (swapLine l) (swapChar g) h1 hm2]
        dsimp only
        have hih := ih
          { old_line := l, mermaid_sign := String.mk [g],
            in_mermaid_code := true, is_mermaid := true }
          { old_line := swapLine l, mermaid_sign := String.mk [swapChar g],
            in_mermaid_code := true, is_mermaid := true }
          rfl rfl (isBlank_swapLine l) rfl h5
        constructor
        · rw [h3]
          congr 1
          exact hih.1
        · exact hih.2
      | none =>
        rw [glyphSafe_noopen _ _ _ hm] at h5
        rw [swapFencesAux_noopen _ _ _ hm]
        rw [loop_cons st2, loop_cons st1, step_no_open st1 l hcode hm,
          step_no_open st2 l h1 hm]
        dsimp only
        rw [hcode, h1]
        have hih := ih
          { old_line := l, mermaid_sign := st1.mermaid_sign,
            in_mermaid_code := false, is_mermaid := st1.is_mermaid }
          { old_line := l, mermaid_sign := st2.mermaid_sign,
            in_mermaid_code := false, is_mermaid := st2.is_mermaid }
          rfl (show st2.is_mermaid = st1.is_mermaid from h2) rfl
          (show st2.mermaid_sign = swapStr st1.mermaid_sign from h4)
          (show glyphSafe false st1.mermaid_sign ls = true from h5)
        constructor
        · congr 1
          exact hih.1
        · exact hih.2
    | true =>
      rw [hcode] at h1 h5
      cases hc : matchClose st1.mermaid_sign l with
      | true =>
        rw [glyphSafe_close _ _ _ hc] at h5
        rw [swapFencesAux_close _ _ _ hc]
        have hc2 : matchClose st2.mermaid_sign (swapLine l) = true := by
          rw [h4, matchClose_swap]
          exact hc
        rw [loop_cons st2, loop_cons st1, step_close st1 l hcode hc,
          step_close st2 (swapLine l) h1 hc2]
        dsimp only
        have hih := ih { st1 with in_mermaid_code := false, old_line := l }
          { st2 with in_mermaid_code := false, old_line := swapLine l }
          rfl (show st2.is_mermaid = st1.is_mermaid from h2) (isBlank_swapLine l)
          (show st2.mermaid_sign = swapStr st1.mermaid_sign from h4)
          (show glyphSafe false st1.mermaid_sign ls = true from h5)
        constructor
        · congr 1
          exact hih.1
        · exact hih.2
      | false =>
        rw [glyphSafe_noclose _ _ _ hc, Bool.and_eq_true, Bool.not_eq_true'] at h5
        rw [swapFencesAux_noclose _ _ _ hc]
        have hc2 : matchClose st2.mermaid_sign l = false := by
          rw [h4]
          exact h5.1
        rw [loop_cons st2, loop_cons st1, step_content st1 l hcode hc,
          step_content st2 l h1 hc2]
        dsimp only
        rw [hcode, h1]
        have hih := ih
          { old_line := l, mermaid_sign := st1.mermaid_sign,
            in_mermaid_code := true, is_mermaid := st1.is_mermaid }
          { old_line := l, mermaid_sign := st2.mermaid_sign,
            in_mermaid_code := true, is_mermaid := st2.is_mermaid }
          rfl (show st2.is_mermaid = st1.is_mermaid from h2) rfl
          (show st2.mermaid_sign = swapStr st1.mermaid_sign from h4)
          (show glyphSafe true st1.mermaid_sign ls = true from h5.2)
        constructor
        · congr 1
          exact hih.1
        · exact hih.2

/-- C7 (amended): swapping every recognized opening fence and its matching
closing fence to the opposite glyph leaves `run`'s output unchanged,
*provided* no content line inside a block would match the closing-fence
pattern of the swapped glyph.  Without that proviso the swapped document can
close a block early (see the counterexample). -/
theorem glyph_swap (p : Preproc) (ls : List String)
    (hs : glyphSafe false "" ls = true) :
    run p (swapFences ls) = run p ls := by
  have h := loop_swap ls initState initState rfl rfl rfl (by decide) hs
  have h1 : (loop initState (swapFences ls)).1 = (loop initState ls).1 := h.1
  have h2 : (loop initState (swapFences ls)).2.is_mermaid
      = (loop initState ls).2.is_mermaid := h.2
  unfold run
  rw [h1, h2]

set_option maxRecDepth 8192 in
/-- C7 (counterexample): glyph independence fails without a side condition.
In the document below the backtick block's content line `~~~` is harmless,
but after swapping the fences to tildes that same line closes the block
early, so the outputs differ. -/
theorem glyph_swap_counterexample :
    swapFences ["```mermaid", "~~~", "```", "x"]
      = ["~~~mermaid", "~~~", "~~~", "x"] ∧
    run sentinelPre (swapFences ["```mermaid", "~~~", "```", "x"]) ≠
      run sentinelPre ["```mermaid", "~~~", "```", "x"] := by
  constructor
  · rfl
  · decide

set_option maxRecDepth 8192 in
theorem glyph_swap_witness :
    run sentinelPre (swapFences
      ["intro", "```mermaid", "A-->B;", "```", "", "~~~mermaid", "C-->D;", "~~~"]) =
    run sentinelPre
      ["intro", "```mermaid", "A-->B;", "```", "", "~~~mermaid", "C-->D;", "~~~"] :=
  glyph_swap sentinelPre _ (by decide)

end MdMermaid
